import Mathlib

/-!
Verification of the solar energy model in `app.py`.

The engine computes a global efficiency from four factors, a constant daily
demand, a per-day energy balance from a normalized 1 kW generation series
scaled by the panel power, a battery state-of-charge trajectory obtained by
adding each day's balance and clamping to the physical bounds `[0, E_max_Wh]`,
a per-day below-minimum flag, and a count of flagged days.  A second code
path (`sim_dias_sin`) re-runs the same recurrence for every pair of a battery
capacity list and a panel power list.

All numeric quantities are modelled as rationals.
-/

namespace SolarTracker

/-- One row of the processed generation table `df_gen`: a date (as an ordinal
day number) and the normalized daily energy of a 1 kW reference panel in kWh. -/
structure GenerationSample where
  fecha : ℕ
  energia_1kw_kwh : ℚ
deriving DecidableEq

/-- The scalar inputs of the single-scenario simulation, as read from the
widgets and the consumption spreadsheet in `app.py`. -/
structure SimulationParameters where
  panel_kw : ℚ
  consumo_total_kWh : ℚ
  eta_fv : ℚ
  eta_cableado : ℚ
  eta_mppt : ℚ
  eta_bat : ℚ
  V_bat : ℚ
  C_bat_Ah : ℚ
  DoD_pct : ℚ
  soc_init_pct : ℚ
deriving DecidableEq

/-- `eta_global = eta_fv * eta_cableado * eta_mppt * eta_bat`. -/
def eta_global (p : SimulationParameters) : ℚ :=
  p.eta_fv * p.eta_cableado * p.eta_mppt * p.eta_bat

/-- `demanda_kwh = consumo_total_kWh / eta_global`, constant across days. -/
def demanda_kwh (p : SimulationParameters) : ℚ :=
  p.consumo_total_kWh / eta_global p

/-- `E_max_Wh = V_bat * C_bat_Ah`. -/
def E_max_Wh (p : SimulationParameters) : ℚ :=
  p.V_bat * p.C_bat_Ah

/-- `E_min_Wh = E_max_Wh * (1 - DoD_pct / 100)`. -/
def E_min_Wh (p : SimulationParameters) : ℚ :=
  E_max_Wh p * (1 - p.DoD_pct / 100)

/-- `SoC0_Wh = E_max_Wh * soc_init_pct / 100`. -/
def SoC0_Wh (p : SimulationParameters) : ℚ :=
  E_max_Wh p * p.soc_init_pct / 100

/-- The per-day balance column `balance_kwh = energia_kwh - demanda_kwh`,
with `energia_kwh = energia_1kw_kwh * panel_kw`. -/
def balance_kwh_list (series : List GenerationSample) (p : SimulationParameters) : List ℚ :=
  series.map (fun s => s.energia_1kw_kwh * p.panel_kw - demanda_kwh p)

/-- The column `balance_Wh = balance_kwh * 1000`. -/
def balance_Wh_list (series : List GenerationSample) (p : SimulationParameters) : List ℚ :=
  (balance_kwh_list series p).map (fun b => b * 1000)

/-- The physical clamp applied inside the day-by-day loop:
`if soc > E_max_Wh: soc = E_max_Wh` followed by `if soc < 0: soc = 0`. -/
def clampSoc (eMax soc : ℚ) : ℚ :=
  let s1 := if soc > eMax then eMax else soc
  if s1 < 0 then 0 else s1

/-- One row of the per-day result table built from `df`. -/
structure DayResult where
  fecha : ℕ
  consumo_kwh : ℚ
  energia_kwh : ℚ
  demanda_kwh : ℚ
  balance_kwh : ℚ
  SoC_Wh : ℚ
  SoC_pct : ℚ
  bateria_por_debajo_min : Bool
deriving DecidableEq

/-- Builds the row of `df` for one generation sample, given the clamped SoC
value appended to `soc_list` for that day. -/
def mkDayResult (p : SimulationParameters) (s : GenerationSample) (soc : ℚ) : DayResult :=
  { fecha := s.fecha
    consumo_kwh := p.consumo_total_kWh
    energia_kwh := s.energia_1kw_kwh * p.panel_kw
    demanda_kwh := demanda_kwh p
    balance_kwh := s.energia_1kw_kwh * p.panel_kw - demanda_kwh p
    SoC_Wh := soc
    SoC_pct := soc / E_max_Wh p * 100
    bateria_por_debajo_min := decide (soc < E_min_Wh p) }

/-- The day-by-day loop: carries the running `soc`, adds the day's balance in
Wh, clamps it, and emits the day's result row. -/
def simulateDaysAux (p : SimulationParameters) : ℚ → List GenerationSample → List DayResult
  | _, [] => []
  | soc, s :: rest =>
    let soc2 := clampSoc (E_max_Wh p)
      (soc + (s.energia_1kw_kwh * p.panel_kw - demanda_kwh p) * 1000)
    mkDayResult p s soc2 :: simulateDaysAux p soc2 rest

/-- The full per-day table, starting the loop from `SoC0_Wh`. -/
def simulateDays (series : List GenerationSample) (p : SimulationParameters) : List DayResult :=
  simulateDaysAux p (SoC0_Wh p) series

/-- The final counter `dias_sin_bateria = sum of bateria_por_debajo_min`. -/
structure SimulationResult where
  days : List DayResult
  dias_sin_bateria : ℕ
deriving DecidableEq

/-- The only fatal condition the engine itself detects: `eta_global <= 0`
stops the script before the demand is computed. -/
inductive SimError where
  | configurationError
deriving DecidableEq

/-- The whole single-scenario run: the `eta_global <= 0` guard, then the
day-by-day table and the below-minimum day count. -/
def runSimulation (series : List GenerationSample) (p : SimulationParameters) :
    Except SimError SimulationResult :=
  if eta_global p ≤ 0 then
    Except.error SimError.configurationError
  else
    let days := simulateDays series p
    Except.ok { days := days,
                dias_sin_bateria := days.countP (fun d => d.bateria_por_debajo_min) }

/-- The body of the sweep loop: add the day's balance, clamp with
`soc = min(soc, E_max)` then `soc = max(soc, 0)`. -/
def sweepStep (eMax demanda panel : ℚ) (soc e : ℚ) : ℚ :=
  max (min (soc + (e * panel - demanda) * 1000) eMax) 0

/-- The sweep loop of `sim_dias_sin`: runs `sweepStep` over the generation
values and counts the days whose clamped SoC is strictly below `eMin`. -/
def diasSinAux (eMax eMin demanda panel : ℚ) : ℚ → List ℚ → ℕ
  | _, [] => 0
  | soc, e :: es =>
    let soc2 := sweepStep eMax demanda panel soc e
    (if soc2 < eMin then 1 else 0) + diasSinAux eMax eMin demanda panel soc2 es

/-- `sim_dias_sin(panel_kw, bat_Wh)`: capacity taken directly in Wh, floor
from the global `DoD_pct`, initial SoC equal to the full capacity. -/
def sim_dias_sin (gen : List ℚ) (dod demanda panel bat : ℚ) : ℕ :=
  diasSinAux bat (bat * (1 - dod / 100)) demanda panel bat gen

/-- The running `soc` variable of the sweep loop after consuming a list of
generation values. -/
def sweepSocAfter (eMax demanda panel soc : ℚ) (gen : List ℚ) : ℚ :=
  gen.foldl (sweepStep eMax demanda panel) soc

/-- The configured battery capacity list of the sweep. -/
def lista_bat_Wh : List ℚ := [600, 1200, 1800, 2400, 3000]

/-- The configured panel power list of the sweep. -/
def lista_pv_kw : List ℚ := [2/5, 1/2, 3/5, 4/5, 1]

/-- One row of the sweep table (the label is a fixed function of the power
and is presentation-only, so the row keeps the numeric power). -/
structure SweepRow where
  E_bateria_Wh : ℚ
  Potencia_kw : ℚ
  Dias_sin : ℕ
deriving DecidableEq

/-- The sweep table: one row per pair of the two configured lists. -/
def sweepTable (gen : List ℚ) (dod demanda : ℚ) : List SweepRow :=
  lista_bat_Wh.flatMap (fun bat =>
    lista_pv_kw.map (fun pv =>
      { E_bateria_Wh := bat, Potencia_kw := pv,
        Dias_sin := sim_dias_sin gen dod demanda pv bat }))

/-- Spec-side clamp with ordered bounds: `clamp(x, lo, hi) = min hi (max lo x)`. -/
def specClamp (lo hi x : ℚ) : ℚ := min hi (max lo x)

/-- Spec-side SoC recurrence: `soc_0 = soc0` and
`soc_(i+1) = clamp(soc_i + balanceKWh_i * 1000, 0, eMax)`. -/
def specSoc (eMax soc0 : ℚ) (balKWh : List ℚ) : ℕ → ℚ
  | 0 => soc0
  | i + 1 => specClamp 0 eMax (specSoc eMax soc0 balKWh i + balKWh.getD i 0 * 1000)

/-- The list `[soc_1, ..., soc_n]` of the spec-side recurrence. -/
def specSocList (eMax soc0 : ℚ) (balKWh : List ℚ) : List ℚ :=
  (List.range balKWh.length).map (fun i => specSoc eMax soc0 balKWh (i + 1))

theorem ite_neg_zero (x : ℚ) : (if x < 0 then 0 else x) = max x 0 := by
  rcases lt_or_le x 0 with h | h
  · rw [if_pos h, eq_comm]
    exact max_eq_right h.le
  · rw [if_neg (not_lt.mpr h), eq_comm]
    exact max_eq_left h

theorem clampSoc_eq (eMax x : ℚ) : clampSoc eMax x = max (min x eMax) 0 := by
  unfold clampSoc
  rcases lt_or_le eMax x with h | h
  · rw [if_pos h, ite_neg_zero, min_eq_right h.le]
  · rw [if_neg (not_lt.mpr h), ite_neg_zero, min_eq_left h]

theorem clampSoc_eq_specClamp (eMax x : ℚ) (he : 0 ≤ eMax) :
    clampSoc eMax x = specClamp 0 eMax x := by
  rw [clampSoc_eq, specClamp]
  rcases le_total x 0 with h | h
  · rw [max_eq_left h, min_eq_left (h.trans he), max_eq_right h, min_eq_right he]
  · rw [max_eq_right h]
    rcases le_total x eMax with h2 | h2
    · rw [min_eq_left h2, min_eq_right h2, max_eq_left h]
    · rw [min_eq_right h2, min_eq_left h2, max_eq_left he]

theorem clampSoc_nonneg (eMax x : ℚ) : 0 ≤ clampSoc eMax x := by
  rw [clampSoc_eq]; exact le_max_right _ _

theorem clampSoc_le (eMax x : ℚ) (he : 0 ≤ eMax) : clampSoc eMax x ≤ eMax := by
  rw [clampSoc_eq]
  exact max_le (min_le_right _ _) he

theorem specSoc_shift (eMax soc0 b : ℚ) (bs : List ℚ) (i : ℕ) :
    specSoc eMax (specClamp 0 eMax (soc0 + b * 1000)) bs i =
      specSoc eMax soc0 (b :: bs) (i + 1) := by
  induction i with
  | zero => simp [specSoc]
  | succ i ih => simp [specSoc, ih, List.getD_cons_succ]

theorem specSocList_cons (eMax soc0 b : ℚ) (bs : List ℚ) :
    specSocList eMax soc0 (b :: bs) =
      specClamp 0 eMax (soc0 + b * 1000) ::
        specSocList eMax (specClamp 0 eMax (soc0 + b * 1000)) bs := by
  unfold specSocList
  rw [List.length_cons, List.range_succ_eq_map, List.map_cons, List.map_map]
  congr 1
  apply List.map_congr_left
  intro i _
  exact (specSoc_shift eMax soc0 b bs (i + 1)).symm

theorem balance_kwh_list_cons (s : GenerationSample) (rest : List GenerationSample)
    (p : SimulationParameters) :
    balance_kwh_list (s :: rest) p =
      (s.energia_1kw_kwh * p.panel_kw - demanda_kwh p) :: balance_kwh_list rest p := rfl

theorem simulateDaysAux_length (p : SimulationParameters) :
    ∀ (series : List GenerationSample) (soc0 : ℚ),
      (simulateDaysAux p soc0 series).length = series.length := by
  intro series
  induction series with
  | nil => intro soc0; rfl
  | cons s rest ih => intro soc0; simp [simulateDaysAux, ih]

theorem simulateDaysAux_map_SoC (p : SimulationParameters) (he : 0 ≤ E_max_Wh p) :
    ∀ (series : List GenerationSample) (soc0 : ℚ),
      (simulateDaysAux p soc0 series).map (fun d => d.SoC_Wh) =
        specSocList (E_max_Wh p) soc0 (balance_kwh_list series p) := by
  intro series
  induction series with
  | nil => intro soc0; simp [simulateDaysAux, specSocList, balance_kwh_list]
  | cons s rest ih =>
    intro soc0
    have h2 := clampSoc_eq_specClamp (E_max_Wh p)
      (soc0 + (s.energia_1kw_kwh * p.panel_kw - demanda_kwh p) * 1000) he
    simp only [simulateDaysAux, List.map_cons, mkDayResult, ih]
    rw [balance_kwh_list_cons, specSocList_cons, h2]

theorem mem_simulateDaysAux (p : SimulationParameters) :
    ∀ (series : List GenerationSample) (soc0 : ℚ) (d : DayResult),
      d ∈ simulateDaysAux p soc0 series →
        ∃ s y, s ∈ series ∧ d = mkDayResult p s (clampSoc (E_max_Wh p) y) := by
  intro series
  induction series with
  | nil => intro soc0 d hd; simp [simulateDaysAux] at hd
  | cons s rest ih =>
    intro soc0 d hd
    simp only [simulateDaysAux, List.mem_cons] at hd
    rcases hd with hd | hd
    · exact ⟨s, _, List.mem_cons_self _ _, hd⟩
    · obtain ⟨s2, y, hs2, hy⟩ := ih _ d hd
      exact ⟨s2, y, List.mem_cons_of_mem _ hs2, hy⟩

theorem runSimulation_ok (series : List GenerationSample) (p : SimulationParameters)
    (heta : 0 < eta_global p) :
    runSimulation series p = Except.ok
      { days := simulateDays series p,
        dias_sin_bateria :=
          (simulateDays series p).countP (fun d => d.bateria_por_debajo_min) } := by
  unfold runSimulation
  rw [if_neg (not_le.mpr heta)]

theorem sweepStep_nonneg (eMax demanda panel soc e : ℚ) :
    0 ≤ sweepStep eMax demanda panel soc e :=
  le_max_right _ _

theorem sweepStep_le (eMax demanda panel soc e : ℚ) (he : 0 ≤ eMax) :
    sweepStep eMax demanda panel soc e ≤ eMax :=
  max_le (min_le_right _ _) he

theorem sweepSocAfter_bounds (eMax demanda panel : ℚ) (he : 0 ≤ eMax) :
    ∀ (gen : List ℚ) (soc : ℚ), 0 ≤ soc → soc ≤ eMax →
      0 ≤ sweepSocAfter eMax demanda panel soc gen ∧
      sweepSocAfter eMax demanda panel soc gen ≤ eMax := by
  intro gen
  induction gen with
  | nil => intro soc h0 h1; exact ⟨h0, h1⟩
  | cons e es ih =>
    intro soc h0 h1
    exact ih _ (sweepStep_nonneg _ _ _ _ _) (sweepStep_le _ _ _ _ _ he)

theorem diasSinAux_eq_countP (eMax eMin demanda panel : ℚ) :
    ∀ (gen : List ℚ) (soc : ℚ),
      diasSinAux eMax eMin demanda panel soc gen =
        (List.range gen.length).countP
          (fun k => decide (sweepSocAfter eMax demanda panel soc (gen.take (k + 1)) < eMin)) := by
  intro gen
  induction gen with
  | nil => intro soc; rfl
  | cons e es ih =>
    intro soc
    rw [List.length_cons, List.range_succ_eq_map, List.countP_cons, List.countP_map]
    have h0 : sweepSocAfter eMax demanda panel soc ((e :: es).take (0 + 1)) =
        sweepStep eMax demanda panel soc e := rfl
    have ht : ∀ k : ℕ, sweepSocAfter eMax demanda panel soc ((e :: es).take (k + 1 + 1)) =
        sweepSocAfter eMax demanda panel (sweepStep eMax demanda panel soc e) (es.take (k + 1)) := by
      intro k; rfl
    show (if sweepStep eMax demanda panel soc e < eMin then 1 else 0) +
        diasSinAux eMax eMin demanda panel (sweepStep eMax demanda panel soc e) es = _
    rw [ih (sweepStep eMax demanda panel soc e)]
    rw [h0]
    have hfun : ((fun k => decide
          (sweepSocAfter eMax demanda panel soc ((e :: es).take (k + 1)) < eMin)) ∘ Nat.succ) =
        (fun k => decide (sweepSocAfter eMax demanda panel
          (sweepStep eMax demanda panel soc e) (es.take (k + 1)) < eMin)) := by
      funext k
      exact decide_eq_decide.mpr (iff_of_eq (congrArg (fun z => z < eMin) (ht k)))
    rw [hfun]
    rcases lt_or_le (sweepStep eMax demanda panel soc e) eMin with h | h
    · rw [if_pos h, if_pos (decide_eq_true h)]
      exact Nat.add_comm _ _
    · rw [if_neg (not_lt.mpr h), if_neg (by simp [not_lt.mpr h])]
      exact Nat.add_comm _ _

/-- The generation series used by the concrete witnesses. -/
def series1 : List GenerationSample := [⟨1, 5⟩, ⟨2, 0⟩]

/-- The parameter set used by the concrete witnesses: the widget defaults of
`app.py` with a total consumption of 10 kWh/day. -/
def params1 : SimulationParameters :=
  { panel_kw := 1, consumo_total_kWh := 10, eta_fv := 9/10, eta_cableado := 49/50,
    eta_mppt := 24/25, eta_bat := 9/10, V_bat := 12, C_bat_Ah := 250,
    DoD_pct := 80, soc_init_pct := 100 }

/-- Claim C1: for every generation series with strictly ascending (hence
deduplicated) dates and every parameter set with positive global efficiency
and positive battery voltage and amp-hour capacity, the run succeeds, the
initial SoC is `E_max_Wh * soc_init_pct / 100`, the SoC column of the result
is exactly the recurrence `soc_i = clamp(soc_(i-1) + balanceKWh_i * 1000, 0,
E_max_Wh)` started at `soc_0 = SoC0_Wh`, and the SoC percent column is
`SoC_Wh / E_max_Wh * 100`. -/
theorem C1_soc_recurrence (series : List GenerationSample) (p : SimulationParameters)
    (_hdates : List.Chain' (fun a b => a < b) (series.map (fun s => s.fecha)))
    (heta : 0 < eta_global p) (hV : 0 < p.V_bat) (hC : 0 < p.C_bat_Ah) :
    SoC0_Wh p = E_max_Wh p * p.soc_init_pct / 100 ∧
    ∃ res, runSimulation series p = Except.ok res ∧
      res.days.length = series.length ∧
      res.days.map (fun d => d.SoC_Wh) =
        (List.range series.length).map
          (fun i => specSoc (E_max_Wh p) (SoC0_Wh p) (balance_kwh_list series p) (i + 1)) ∧
      ∀ d ∈ res.days, d.SoC_pct = d.SoC_Wh / E_max_Wh p * 100 := by
  have hemax : 0 ≤ E_max_Wh p := le_of_lt (mul_pos hV hC)
  refine ⟨rfl, _, runSimulation_ok series p heta, ?_, ?_, ?_⟩
  · exact simulateDaysAux_length p series (SoC0_Wh p)
  · rw [show simulateDays series p = simulateDaysAux p (SoC0_Wh p) series from rfl,
      simulateDaysAux_map_SoC p hemax series (SoC0_Wh p), specSocList]
    congr 2
    rw [balance_kwh_list, List.length_map]
  · intro d hd
    obtain ⟨s, y, _, rfl⟩ := mem_simulateDaysAux p series (SoC0_Wh p) d hd
    rfl

theorem C1_soc_recurrence_witness :
    SoC0_Wh params1 = E_max_Wh params1 * params1.soc_init_pct / 100 ∧
    ∃ res, runSimulation series1 params1 = Except.ok res ∧
      res.days.length = series1.length ∧
      res.days.map (fun d => d.SoC_Wh) =
        (List.range series1.length).map
          (fun i => specSoc (E_max_Wh params1) (SoC0_Wh params1)
            (balance_kwh_list series1 params1) (i + 1)) ∧
      ∀ d ∈ res.days, d.SoC_pct = d.SoC_Wh / E_max_Wh params1 * 100 :=
  C1_soc_recurrence series1 params1 (by simp [series1, List.chain'_cons])
    (by norm_num [eta_global, params1]) (by norm_num [params1]) (by norm_num [params1])

/-- Claim C2: bounds invariant: every day of the single-scenario simulation
has `0 ≤ SoC_Wh ≤ E_max_Wh` (for positive voltage and capacity), and in
every sweep cell the running SoC after any number of days stays within
`[0, bat_Wh]`; the clamp discards any excess, so no out-of-bounds value is
ever carried into a later day. -/
theorem C2_bounds_invariant (p : SimulationParameters) (series : List GenerationSample)
    (gen : List ℚ) (demanda panel bat : ℚ)
    (hV : 0 < p.V_bat) (hC : 0 < p.C_bat_Ah) (hbat : 0 ≤ bat) :
    (∀ d ∈ simulateDays series p, 0 ≤ d.SoC_Wh ∧ d.SoC_Wh ≤ E_max_Wh p) ∧
    (∀ k : ℕ, 0 ≤ sweepSocAfter bat demanda panel bat (gen.take k) ∧
      sweepSocAfter bat demanda panel bat (gen.take k) ≤ bat) := by
  have hemax : 0 ≤ E_max_Wh p := le_of_lt (mul_pos hV hC)
  constructor
  · intro d hd
    obtain ⟨s, y, _, rfl⟩ := mem_simulateDaysAux p series (SoC0_Wh p) d hd
    exact ⟨clampSoc_nonneg _ _, clampSoc_le _ _ hemax⟩
  · intro k
    exact sweepSocAfter_bounds bat demanda panel hbat (gen.take k) bat hbat le_rfl

theorem C2_bounds_invariant_witness :
    (∀ d ∈ simulateDays series1 params1, 0 ≤ d.SoC_Wh ∧ d.SoC_Wh ≤ E_max_Wh params1) ∧
    (∀ k : ℕ, 0 ≤ sweepSocAfter 600 2 1 600 (([5] : List ℚ).take k) ∧
      sweepSocAfter 600 2 1 600 (([5] : List ℚ).take k) ≤ 600) :=
  C2_bounds_invariant params1 series1 [5] 2 1 600 (by norm_num [params1])
    (by norm_num [params1]) (by norm_num)

/-- Claim C3: a day is flagged below-minimum exactly when its SoC is strictly
below `E_min_Wh` (equality is not flagged), the final counter equals the
number of flagged days, and the sweep counter equals the number of days whose
running SoC is strictly below the cell's floor. -/
theorem C3_below_min_flag (series : List GenerationSample) (p : SimulationParameters)
    (gen : List ℚ) (dod demanda panel bat : ℚ)
    (heta : 0 < eta_global p) :
    ∃ res, runSimulation series p = Except.ok res ∧
      (∀ d ∈ res.days, d.bateria_por_debajo_min = true ↔ d.SoC_Wh < E_min_Wh p) ∧
      res.dias_sin_bateria = res.days.countP (fun d => decide (d.SoC_Wh < E_min_Wh p)) ∧
      sim_dias_sin gen dod demanda panel bat =
        (List.range gen.length).countP
          (fun k => decide (sweepSocAfter bat demanda panel bat (gen.take (k + 1)) <
            bat * (1 - dod / 100))) := by
  refine ⟨_, runSimulation_ok series p heta, ?_, ?_, ?_⟩
  · intro d hd
    obtain ⟨s, y, _, rfl⟩ := mem_simulateDaysAux p series (SoC0_Wh p) d hd
    exact decide_eq_true_iff
  · apply List.countP_congr
    intro d hd
    obtain ⟨s, y, _, rfl⟩ := mem_simulateDaysAux p series (SoC0_Wh p) d hd
    rfl
  · exact diasSinAux_eq_countP bat (bat * (1 - dod / 100)) demanda panel gen bat

theorem C3_below_min_flag_witness :
    ∃ res, runSimulation series1 params1 = Except.ok res ∧
      (∀ d ∈ res.days, d.bateria_por_debajo_min = true ↔ d.SoC_Wh < E_min_Wh params1) ∧
      res.dias_sin_bateria = res.days.countP (fun d => decide (d.SoC_Wh < E_min_Wh params1)) ∧
      sim_dias_sin [5] 80 2 1 600 =
        (List.range ([5] : List ℚ).length).countP
          (fun k => decide (sweepSocAfter 600 2 1 600 (([5] : List ℚ).take (k + 1)) <
            600 * (1 - 80 / 100))) :=
  C3_below_min_flag series1 params1 [5] 80 2 1 600 (by norm_num [eta_global, params1])

/-- A parameter set with a zero efficiency factor, hence `eta_global = 0`. -/
def params0 : SimulationParameters :=
  { panel_kw := 1, consumo_total_kWh := 10, eta_fv := 0, eta_cableado := 49/50,
    eta_mppt := 24/25, eta_bat := 9/10, V_bat := 12, C_bat_Ah := 250,
    DoD_pct := 80, soc_init_pct := 100 }

/-- Unit efficiencies and zero consumption: every daily balance is the
generation itself, so it is nonnegative for a nonnegative profile. -/
def params8 : SimulationParameters :=
  { panel_kw := 1, consumo_total_kWh := 0, eta_fv := 1, eta_cableado := 1,
    eta_mppt := 1, eta_bat := 1, V_bat := 12, C_bat_Ah := 250,
    DoD_pct := 80, soc_init_pct := 100 }

/-- Claim C4 (counterexample): with the default parameters, the empty
generation series does not fail: the run returns an ok result with an empty
day table and a zero count; the code has no empty-input error at all. -/
theorem C4_counterexample :
    runSimulation [] params1 = Except.ok { days := [], dias_sin_bateria := 0 } :=
  runSimulation_ok [] params1 (by norm_num [eta_global, params1])

/-- Claim C4 (amended): for every parameter set with positive global
efficiency, the empty generation series is not rejected: the run silently
returns an empty day table with a zero below-minimum count. -/
theorem C4_empty_series_silent (p : SimulationParameters) (heta : 0 < eta_global p) :
    runSimulation [] p = Except.ok { days := [], dias_sin_bateria := 0 } :=
  runSimulation_ok [] p heta

theorem C4_empty_series_silent_witness :
    runSimulation [] params8 = Except.ok { days := [], dias_sin_bateria := 0 } :=
  C4_empty_series_silent params8 (by norm_num [eta_global, params8])

/-- Claim C5: whenever `eta_global ≤ 0` the run stops with the configuration
error before anything is simulated: it produces no result and no per-day
rows. -/
theorem C5_config_error (series : List GenerationSample) (p : SimulationParameters)
    (heta : eta_global p ≤ 0) :
    runSimulation series p = Except.error SimError.configurationError := by
  unfold runSimulation
  rw [if_pos heta]

theorem C5_config_error_witness :
    runSimulation series1 params0 = Except.error SimError.configurationError :=
  C5_config_error series1 params0 (by norm_num [eta_global, params0])

theorem simulateDaysAux_map_energia (p : SimulationParameters) :
    ∀ (series : List GenerationSample) (soc0 : ℚ),
      (simulateDaysAux p soc0 series).map (fun d => d.energia_kwh) =
        series.map (fun s => s.energia_1kw_kwh * p.panel_kw) := by
  intro series
  induction series with
  | nil => intro soc0; rfl
  | cons s rest ih => intro soc0; simp [simulateDaysAux, mkDayResult, ih]

theorem simulateDaysAux_map_balance (p : SimulationParameters) :
    ∀ (series : List GenerationSample) (soc0 : ℚ),
      (simulateDaysAux p soc0 series).map (fun d => d.balance_kwh) =
        series.map (fun s => s.energia_1kw_kwh * p.panel_kw - demanda_kwh p) := by
  intro series
  induction series with
  | nil => intro soc0; rfl
  | cons s rest ih => intro soc0; simp [simulateDaysAux, mkDayResult, ih]

/-- Claim C6: the global efficiency is the product of the four factors, the
demand is the single scalar `consumo / eta_global` repeated on every day,
each day's generation is the normalized profile value scaled by the panel
power, and each day's balance is generation minus that constant demand. -/
theorem C6_balance_columns (series : List GenerationSample) (p : SimulationParameters)
    (heta : 0 < eta_global p) :
    eta_global p = p.eta_fv * p.eta_cableado * p.eta_mppt * p.eta_bat ∧
    ∃ res, runSimulation series p = Except.ok res ∧
      (∀ d ∈ res.days, d.demanda_kwh = p.consumo_total_kWh / eta_global p) ∧
      res.days.map (fun d => d.energia_kwh) =
        series.map (fun s => s.energia_1kw_kwh * p.panel_kw) ∧
      res.days.map (fun d => d.balance_kwh) =
        series.map (fun s => s.energia_1kw_kwh * p.panel_kw -
          p.consumo_total_kWh / eta_global p) := by
  refine ⟨rfl, _, runSimulation_ok series p heta, ?_, ?_, ?_⟩
  · intro d hd
    obtain ⟨s, y, _, rfl⟩ := mem_simulateDaysAux p series (SoC0_Wh p) d hd
    rfl
  · exact simulateDaysAux_map_energia p series (SoC0_Wh p)
  · exact simulateDaysAux_map_balance p series (SoC0_Wh p)

theorem C6_balance_columns_witness :
    eta_global params1 = params1.eta_fv * params1.eta_cableado * params1.eta_mppt *
      params1.eta_bat ∧
    ∃ res, runSimulation series1 params1 = Except.ok res ∧
      (∀ d ∈ res.days, d.demanda_kwh = params1.consumo_total_kWh / eta_global params1) ∧
      res.days.map (fun d => d.energia_kwh) =
        series1.map (fun s => s.energia_1kw_kwh * params1.panel_kw) ∧
      res.days.map (fun d => d.balance_kwh) =
        series1.map (fun s => s.energia_1kw_kwh * params1.panel_kw -
          params1.consumo_total_kWh / eta_global params1) :=
  C6_balance_columns series1 params1 (by norm_num [eta_global, params1])

/-- The parameter set under which the single-scenario engine reproduces one
sweep cell: unit efficiencies, so the demand equals the total consumption
scalar; the capacity in Wh as voltage times one amp-hour; full initial SoC. -/
def standaloneParams (bat panel dod demanda : ℚ) : SimulationParameters :=
  { panel_kw := panel, consumo_total_kWh := demanda, eta_fv := 1, eta_cableado := 1,
    eta_mppt := 1, eta_bat := 1, V_bat := bat, C_bat_Ah := 1,
    DoD_pct := dod, soc_init_pct := 100 }

theorem standalone_facts (bat panel dod demanda : ℚ) :
    eta_global (standaloneParams bat panel dod demanda) = 1 ∧
    demanda_kwh (standaloneParams bat panel dod demanda) = demanda ∧
    E_max_Wh (standaloneParams bat panel dod demanda) = bat ∧
    E_min_Wh (standaloneParams bat panel dod demanda) = bat * (1 - dod / 100) ∧
    SoC0_Wh (standaloneParams bat panel dod demanda) = bat := by
  norm_num [eta_global, demanda_kwh, E_max_Wh, E_min_Wh, SoC0_Wh, standaloneParams,
    mul_div_assoc]

theorem countP_simulateDaysAux (q : SimulationParameters) :
    ∀ (gen : List ℚ) (soc : ℚ),
      (simulateDaysAux q soc (gen.map (fun e => ⟨0, e⟩))).countP
          (fun d => d.bateria_por_debajo_min) =
        diasSinAux (E_max_Wh q) (E_min_Wh q) (demanda_kwh q) q.panel_kw soc gen := by
  intro gen
  induction gen with
  | nil => intro soc; rfl
  | cons e es ih =>
    intro soc
    have hstep : sweepStep (E_max_Wh q) (demanda_kwh q) q.panel_kw soc e =
        clampSoc (E_max_Wh q) (soc + (e * q.panel_kw - demanda_kwh q) * 1000) :=
      (clampSoc_eq _ _).symm
    simp only [List.map_cons, simulateDaysAux, List.countP_cons, mkDayResult, ih,
      diasSinAux, hstep]
    rcases lt_or_le (clampSoc (E_max_Wh q) (soc + (e * q.panel_kw - demanda_kwh q) * 1000))
        (E_min_Wh q) with h | h
    · rw [if_pos h, if_pos (decide_eq_true h)]
      exact Nat.add_comm _ _
    · rw [if_neg (not_lt.mpr h), if_neg (by simp [not_lt.mpr h])]
      exact Nat.add_comm _ _

/-- Claim C7: every sweep cell's count is exactly what the single-scenario
engine produces when configured with the cell's capacity as `E_max_Wh`, the
floor `capacity * (1 - dod/100)`, an initial SoC of 100% of the capacity
(whatever `soc_init_pct` the single scenario used), the generation profile
scaled by the cell's power, and the same constant demand; each table row is
a pure function of its own pair, so no state crosses cells. -/
theorem C7_sweep_independence (gen : List ℚ) (dod demanda : ℚ) :
    (∀ bat panel : ℚ,
      ∃ res, runSimulation (gen.map (fun e => ⟨0, e⟩))
          (standaloneParams bat panel dod demanda) = Except.ok res ∧
        E_max_Wh (standaloneParams bat panel dod demanda) = bat ∧
        E_min_Wh (standaloneParams bat panel dod demanda) = bat * (1 - dod / 100) ∧
        SoC0_Wh (standaloneParams bat panel dod demanda) = bat ∧
        demanda_kwh (standaloneParams bat panel dod demanda) = demanda ∧
        res.dias_sin_bateria = sim_dias_sin gen dod demanda panel bat) ∧
    (∀ row ∈ sweepTable gen dod demanda,
      row.Dias_sin = sim_dias_sin gen dod demanda row.Potencia_kw row.E_bateria_Wh) := by
  constructor
  · intro bat panel
    obtain ⟨h1, h2, h3, h4, h5⟩ := standalone_facts bat panel dod demanda
    refine ⟨_, runSimulation_ok _ _ (by rw [h1]; norm_num), h3, h4, h5, h2, ?_⟩
    show (simulateDaysAux (standaloneParams bat panel dod demanda)
        (SoC0_Wh (standaloneParams bat panel dod demanda))
        (gen.map (fun e => ⟨0, e⟩))).countP (fun d => d.bateria_por_debajo_min) = _
    rw [countP_simulateDaysAux, h2, h3, h4, h5]
    rfl
  · intro row hrow
    simp only [sweepTable, List.mem_flatMap, List.mem_map] at hrow
    obtain ⟨bat, _, pv, _, rfl⟩ := hrow
    rfl

theorem C7_sweep_independence_witness :
    ∃ res, runSimulation (([5] : List ℚ).map (fun e => ⟨0, e⟩))
        (standaloneParams 600 1 80 2) = Except.ok res ∧
      E_max_Wh (standaloneParams 600 1 80 2) = 600 ∧
      E_min_Wh (standaloneParams 600 1 80 2) = 600 * (1 - 80 / 100) ∧
      SoC0_Wh (standaloneParams 600 1 80 2) = 600 ∧
      demanda_kwh (standaloneParams 600 1 80 2) = 2 ∧
      res.dias_sin_bateria = sim_dias_sin [5] 80 2 1 600 :=
  (C7_sweep_independence [5] 80 2).1 600 1

theorem balance_Wh_list_cons (s : GenerationSample) (rest : List GenerationSample)
    (p : SimulationParameters) :
    balance_Wh_list (s :: rest) p =
      (s.energia_1kw_kwh * p.panel_kw - demanda_kwh p) * 1000 :: balance_Wh_list rest p := rfl

theorem clampSoc_saturated (eMax b : ℚ) (he : 0 ≤ eMax) (hb : 0 ≤ b) :
    clampSoc eMax (eMax + b) = eMax := by
  rw [clampSoc_eq, min_eq_right (le_add_of_nonneg_right hb), max_eq_left he]

theorem simulateDaysAux_saturated (p : SimulationParameters) (he : 0 ≤ E_max_Wh p) :
    ∀ (series : List GenerationSample),
      (∀ b ∈ balance_Wh_list series p, 0 ≤ b) →
      ∀ d ∈ simulateDaysAux p (E_max_Wh p) series, d.SoC_Wh = E_max_Wh p := by
  intro series
  induction series with
  | nil => intro _ d hd; simp [simulateDaysAux] at hd
  | cons s rest ih =>
    intro hb d hd
    rw [balance_Wh_list_cons] at hb
    have hb0 := hb _ (List.mem_cons_self _ _)
    have hbt : ∀ b ∈ balance_Wh_list rest p, 0 ≤ b :=
      fun b h => hb b (List.mem_cons_of_mem _ h)
    have hsat : clampSoc (E_max_Wh p)
        (E_max_Wh p + (s.energia_1kw_kwh * p.panel_kw - demanda_kwh p) * 1000) = E_max_Wh p :=
      clampSoc_saturated _ _ he hb0
    simp only [simulateDaysAux, List.mem_cons, hsat] at hd
    rcases hd with rfl | hd
    · rfl
    · exact ih hbt d hd

/-- Claim C8: no drift: if the initial SoC equals the full capacity and every
day's balance in Wh is nonnegative, every day of the run stays exactly at
`E_max_Wh` (the trajectory is saturated at the ceiling). -/
theorem C8_no_drift (series : List GenerationSample) (p : SimulationParameters)
    (heta : 0 < eta_global p) (hV : 0 < p.V_bat) (hC : 0 < p.C_bat_Ah)
    (hsoc0 : SoC0_Wh p = E_max_Wh p)
    (hbal : ∀ b ∈ balance_Wh_list series p, 0 ≤ b) :
    ∃ res, runSimulation series p = Except.ok res ∧
      ∀ d ∈ res.days, d.SoC_Wh = E_max_Wh p := by
  have hemax : 0 ≤ E_max_Wh p := le_of_lt (mul_pos hV hC)
  refine ⟨_, runSimulation_ok series p heta, ?_⟩
  intro d hd
  rw [show simulateDays series p = simulateDaysAux p (SoC0_Wh p) series from rfl, hsoc0] at hd
  exact simulateDaysAux_saturated p hemax series hbal d hd

theorem C8_no_drift_witness :
    ∃ res, runSimulation series1 params8 = Except.ok res ∧
      ∀ d ∈ res.days, d.SoC_Wh = E_max_Wh params8 :=
  C8_no_drift series1 params8 (by norm_num [eta_global, params8])
    (by norm_num [params8]) (by norm_num [params8])
    (by norm_num [SoC0_Wh, E_max_Wh, params8, mul_div_assoc])
    (by
      intro b hb
      simp only [balance_Wh_list, balance_kwh_list, series1, params8, demanda_kwh,
        eta_global, List.map_cons, List.map_nil, List.mem_cons, List.not_mem_nil,
        or_false] at hb
      rcases hb with rfl | rfl <;> norm_num)

/-- Claim C9 (counterexample): with a negative generation sample, which the
code accepts, raising the panel power from 1/2 kW to 1 kW raises the sweep
count from 0 to 1, so the count is not non-increasing in the power for
arbitrary series. -/
theorem C9_counterexample :
    ((1 : ℚ)/2 ≤ 1) ∧
    sim_dias_sin [-1] 50 0 (1/2) 1000 = 0 ∧
    sim_dias_sin [-1] 50 0 1 1000 = 1 := by
  refine ⟨by norm_num, ?_, ?_⟩ <;> norm_num [sim_dias_sin, diasSinAux, sweepStep]

theorem diasSinAux_mono (eMax eMin demanda : ℚ) (p p' : ℚ) (hp : p ≤ p') :
    ∀ (gen : List ℚ), (∀ e ∈ gen, 0 ≤ e) →
      ∀ (soc1 soc2 : ℚ), soc1 ≤ soc2 →
        diasSinAux eMax eMin demanda p' soc2 gen ≤ diasSinAux eMax eMin demanda p soc1 gen := by
  intro gen
  induction gen with
  | nil => intro _ soc1 soc2 _; exact le_rfl
  | cons e es ih =>
    intro he soc1 soc2 hs
    have he0 : 0 ≤ e := he e (List.mem_cons_self _ _)
    have hstep : sweepStep eMax demanda p soc1 e ≤ sweepStep eMax demanda p' soc2 e := by
      unfold sweepStep
      apply max_le_max _ le_rfl
      apply min_le_min _ le_rfl
      have hmul : e * p ≤ e * p' := mul_le_mul_of_nonneg_left hp he0
      linarith
    show (if sweepStep eMax demanda p' soc2 e < eMin then 1 else 0) +
        diasSinAux eMax eMin demanda p' (sweepStep eMax demanda p' soc2 e) es ≤
      (if sweepStep eMax demanda p soc1 e < eMin then 1 else 0) +
        diasSinAux eMax eMin demanda p (sweepStep eMax demanda p soc1 e) es
    have hind : (if sweepStep eMax demanda p' soc2 e < eMin then 1 else 0) ≤
        (if sweepStep eMax demanda p soc1 e < eMin then (1 : ℕ) else 0) := by
      rcases lt_or_le (sweepStep eMax demanda p' soc2 e) eMin with h | h
      · rw [if_pos h, if_pos (lt_of_le_of_lt hstep h)]
      · rw [if_neg (not_lt.mpr h)]
        exact Nat.zero_le _
    exact Nat.add_le_add hind
      (ih (fun x hx => he x (List.mem_cons_of_mem _ hx)) _ _ hstep)

/-- Claim C9 (amended): for a generation series whose samples are all
nonnegative, the sweep count is non-increasing in the panel power: for fixed
series, demand, depth of discharge and capacity, `p ≤ p'` gives a count at
`p'` at most the count at `p`. -/
theorem C9_power_monotonic (gen : List ℚ) (dod demanda bat : ℚ) (p p' : ℚ)
    (hgen : ∀ e ∈ gen, 0 ≤ e) (hp : p ≤ p') :
    sim_dias_sin gen dod demanda p' bat ≤ sim_dias_sin gen dod demanda p bat :=
  diasSinAux_mono bat (bat * (1 - dod / 100)) demanda p p' hp gen hgen bat bat le_rfl

theorem C9_power_monotonic_witness :
    sim_dias_sin [5] 80 2 1 600 ≤ sim_dias_sin [5] 80 2 (1/2) 600 :=
  C9_power_monotonic [5] 80 2 600 (1/2) 1
    (by
      intro e he
      rw [List.mem_singleton] at he
      rw [he]
      norm_num)
    (by norm_num)

theorem diasSinAux_floor_zero (eMax demanda panel : ℚ) :
    ∀ (gen : List ℚ) (soc : ℚ), diasSinAux eMax 0 demanda panel soc gen = 0 := by
  intro gen
  induction gen with
  | nil => intro soc; rfl
  | cons e es ih =>
    intro soc
    show (if sweepStep eMax demanda panel soc e < 0 then 1 else 0) +
        diasSinAux eMax 0 demanda panel (sweepStep eMax demanda panel soc e) es = 0
    rw [if_neg (not_lt.mpr (sweepStep_nonneg _ _ _ _ _)), ih]

/-- Claim C10: with a 100% depth of discharge the usable floor is zero, and
since every clamped SoC is nonnegative and the below-minimum test is strict,
no day is ever flagged: the single-scenario count and every sweep count with
`dod = 100` are zero, for every generation series. -/
theorem C10_full_dod (series : List GenerationSample) (p : SimulationParameters)
    (gen : List ℚ) (demanda panel bat : ℚ)
    (hdod : p.DoD_pct = 100) (heta : 0 < eta_global p) :
    E_min_Wh p = 0 ∧
    (∃ res, runSimulation series p = Except.ok res ∧ res.dias_sin_bateria = 0) ∧
    sim_dias_sin gen 100 demanda panel bat = 0 := by
  have hmin : E_min_Wh p = 0 := by rw [E_min_Wh, hdod]; norm_num
  refine ⟨hmin, ⟨_, runSimulation_ok series p heta, ?_⟩, ?_⟩
  · apply List.countP_eq_zero.mpr
    intro d hd
    obtain ⟨s, y, _, rfl⟩ := mem_simulateDaysAux p series (SoC0_Wh p) d hd
    simp [mkDayResult, hmin, not_lt.mpr (clampSoc_nonneg (E_max_Wh p) y)]
  · rw [sim_dias_sin, show bat * (1 - 100 / 100) = 0 by norm_num]
    exact diasSinAux_floor_zero bat demanda panel gen bat

/-- The default parameters with a 100% depth of discharge. -/
def params10 : SimulationParameters :=
  { panel_kw := 1, consumo_total_kWh := 10, eta_fv := 9/10, eta_cableado := 49/50,
    eta_mppt := 24/25, eta_bat := 9/10, V_bat := 12, C_bat_Ah := 250,
    DoD_pct := 100, soc_init_pct := 100 }

theorem C10_full_dod_witness :
    E_min_Wh params10 = 0 ∧
    (∃ res, runSimulation series1 params10 = Except.ok res ∧ res.dias_sin_bateria = 0) ∧
    sim_dias_sin [5] 100 2 1 600 = 0 :=
  C10_full_dod series1 params10 [5] 2 1 600 rfl (by norm_num [eta_global, params10])

end SolarTracker
